import Mathlib

/-!
Shallow embedding of the ssh-mcp webshell gateway (src/webshell-gateway/index.ts,
src/webshell-gateway/db.ts) and of the MCP tool handlers (src/index.ts).

The MySQL tables are modelled as Lean lists of row structures; a parameterized
UPDATE/DELETE/INSERT becomes the corresponding pure list transformation.  JS
Date values become Nat millisecond timestamps, JS string | null becomes
Option String, JS numbers used as ports become Int.  The in-process
Map<string, SSHSessionInfo> becomes an association list.
-/

namespace SshMcp

/-- Session status column: enum('connected', 'disconnected', 'error') in db.ts. -/
inductive SessionStatus where
  | connected
  | disconnected
  | error
deriving DecidableEq, Repr

/-- WebshellTargetRow from db.ts: one row of the targets table. -/
structure WebshellTargetRow where
  id : String
  host : String
  port : Int
  username : String
  password : Option String
  privateKey : Option String
  name : Option String
deriving DecidableEq, Repr

/-- SessionHistoryRow from db.ts: one row of the sessions (audit) table. -/
structure SessionHistoryRow where
  id : String
  targetId : String
  targetName : Option String
  host : String
  port : Int
  username : String
  startTime : Nat
  endTime : Option Nat
  status : SessionStatus
  reason : Option String
deriving DecidableEq, Repr

/-- AuthSessionRow from db.ts: one row of the auth_sessions table. -/
structure AuthSessionRow where
  token : String
  username : String
  provider : String
  createdAt : Nat
  expiresAt : Nat
deriving DecidableEq, Repr

/-- SSHSessionInfo from webshell-gateway/index.ts: the in-memory live session. -/
structure SSHSessionInfo where
  id : String
  targetId : String
  reason : String
  createdAt : Nat
deriving DecidableEq, Repr

/-! ### WebshellDb operations (db.ts), as pure list transformations. -/

/-- WebshellDb.getTarget: SELECT ... FROM targets WHERE id = ?; returns the
first matching row (id is the primary key). -/
def getTarget (targets : List WebshellTargetRow) (id : String) :
    Option WebshellTargetRow :=
  targets.find? (fun t => t.id == id)

/-- WebshellDb.createTarget: INSERT INTO targets. -/
def createTarget (targets : List WebshellTargetRow) (row : WebshellTargetRow) :
    List WebshellTargetRow :=
  targets ++ [row]

/-- WebshellDb.updateTarget: UPDATE targets SET host, port, username, password,
privateKey, name WHERE id = ?. -/
def updateTarget (targets : List WebshellTargetRow) (row : WebshellTargetRow) :
    List WebshellTargetRow :=
  targets.map (fun t => if t.id == row.id then row else t)

/-- WebshellDb.createSession: INSERT INTO sessions. -/
def createSession (table : List SessionHistoryRow) (row : SessionHistoryRow) :
    List SessionHistoryRow :=
  table ++ [row]

/-- WebshellDb.updateSessionEndTime: UPDATE sessions SET endTime = ?,
status = ? WHERE id = ?. -/
def updateSessionEndTime (table : List SessionHistoryRow) (id : String)
    (endTime : Nat) (status : SessionStatus) : List SessionHistoryRow :=
  table.map (fun r =>
    if r.id == id then { r with endTime := some endTime, status := status } else r)

/-- WebshellDb.deleteAuthSession: DELETE FROM auth_sessions WHERE token = ?. -/
def deleteAuthSession (store : List AuthSessionRow) (token : String) :
    List AuthSessionRow :=
  store.filter (fun r => !(r.token == token))

/-- WebshellDb.getAuthSession: SELECT ... FROM auth_sessions WHERE token = ?;
if the row exists but expiresAt <= Date.now(), delete it and return undefined.
Returns the read result together with the store after the call. -/
def getAuthSession (store : List AuthSessionRow) (token : String) (now : Nat) :
    Option AuthSessionRow × List AuthSessionRow :=
  match store.find? (fun r => r.token == token) with
  | none => (none, store)
  | some session =>
      if session.expiresAt ≤ now then
        (none, deleteAuthSession store token)
      else
        (some session, store)

/-- WebshellDb.pruneExpiredAuthSessions: DELETE FROM auth_sessions WHERE
expires_at <= ?. -/
def pruneExpiredAuthSessions (store : List AuthSessionRow) (now : Nat) :
    List AuthSessionRow :=
  store.filter (fun r => !(r.expiresAt ≤ now : Bool))

/-! ### Claim C8: finalize is an idempotent overwrite. -/

/-- C8: updateSessionEndTime keyed by the handle is an overwrite, not an
insert: it never changes the number of rows or the set of row ids, and a
second call on the same handle fully supersedes the first (last write wins),
so repeated finalization with the same arguments is idempotent. -/
theorem updateSessionEndTime_overwrite_lastWriteWins
    (table : List SessionHistoryRow) (id : String)
    (t1 t2 : Nat) (s1 s2 : SessionStatus) :
    (updateSessionEndTime table id t1 s1).length = table.length ∧
    (updateSessionEndTime table id t1 s1).map SessionHistoryRow.id
      = table.map SessionHistoryRow.id ∧
    updateSessionEndTime (updateSessionEndTime table id t1 s1) id t2 s2
      = updateSessionEndTime table id t2 s2 ∧
    updateSessionEndTime (updateSessionEndTime table id t1 s1) id t1 s1
      = updateSessionEndTime table id t1 s1 := by
  have hcomp : ∀ (t3 : Nat) (s3 : SessionStatus),
      updateSessionEndTime (updateSessionEndTime table id t1 s1) id t3 s3
        = updateSessionEndTime table id t3 s3 := by
    intro t3 s3
    simp only [updateSessionEndTime, List.map_map]
    refine List.map_congr_left (fun a _ => ?_)
    simp only [Function.comp_apply]
    by_cases h : a.id == id
    · simp [h]
    · simp [h]
  refine ⟨by simp [updateSessionEndTime], ?_, hcomp t2 s2, hcomp t1 s1⟩
  simp only [updateSessionEndTime, List.map_map]
  refine List.map_congr_left (fun a _ => ?_)
  simp only [Function.comp_apply]
  by_cases h : a.id == id
  · simp [h]
  · simp [h]

/-! ### Session creation (webshell-gateway/index.ts). -/

/-- createSessionHistoryRow from webshell-gateway/index.ts: the audit row
written when a session is created: status connected, endTime null, the
target's name/host/port/username denormalized into the row; the JS
expression reason || null maps the empty string to null. -/
def createSessionHistoryRow (id : String) (target : WebshellTargetRow)
    (reason : String) (now : Nat) : SessionHistoryRow :=
  { id := id
    targetId := target.id
    targetName := target.name
    host := target.host
    port := target.port
    username := target.username
    startTime := now
    endTime := none
    status := SessionStatus.connected
    reason := if reason == "" then none else some reason }

/-- The only writes the gateway ever performs on the sessions (audit) table
in webshell-gateway/index.ts: db.createSession with a row built by
createSessionHistoryRow (POST /api/session), and db.updateSessionEndTime
with status error (the ssh error handler and the shell-open failure handler)
or status disconnected (the socket close handler).  AuditReachable tbl means
tbl results from some sequence of these writes starting from an empty table. -/
inductive AuditReachable : List SessionHistoryRow → Prop where
  | nil : AuditReachable []
  | create (tbl : List SessionHistoryRow) (id : String)
      (target : WebshellTargetRow) (reason : String) (now : Nat) :
      AuditReachable tbl →
      AuditReachable (createSession tbl (createSessionHistoryRow id target reason now))
  | finalizeError (tbl : List SessionHistoryRow) (id : String) (now : Nat) :
      AuditReachable tbl →
      AuditReachable (updateSessionEndTime tbl id now SessionStatus.error)
  | finalizeDisconnected (tbl : List SessionHistoryRow) (id : String) (now : Nat) :
      AuditReachable tbl →
      AuditReachable (updateSessionEndTime tbl id now SessionStatus.disconnected)

/-- C2: in every audit table the gateway can produce, a row's endTime is
non-null exactly when its status is not connected: creation writes status
connected with endTime null, and every finalize writes a non-null endTime
together with status disconnected or error. -/
theorem auditReachable_endTime_iff_not_connected
    (tbl : List SessionHistoryRow) (h : AuditReachable tbl) :
    ∀ r ∈ tbl, r.endTime ≠ none ↔ r.status ≠ SessionStatus.connected := by
  induction h with
  | nil => intro r hr; cases hr
  | create tbl id target reason now _ ih =>
      intro r hr
      simp only [createSession] at hr
      rcases List.mem_append.mp hr with h1 | h2
      · exact ih r h1
      · have hr2 : r = createSessionHistoryRow id target reason now := by
          simpa using h2
        subst hr2
        simp [createSessionHistoryRow]
  | finalizeError tbl id now _ ih =>
      intro r hr
      simp only [updateSessionEndTime] at hr
      rcases List.mem_map.mp hr with ⟨a, ha, rfl⟩
      by_cases hid : a.id == id
      · simp [hid]
      · simpa [hid] using ih a ha
  | finalizeDisconnected tbl id now _ ih =>
      intro r hr
      simp only [updateSessionEndTime] at hr
      rcases List.mem_map.mp hr with ⟨a, ha, rfl⟩
      by_cases hid : a.id == id
      · simp [hid]
      · simpa [hid] using ih a ha

/-- Witness for C2: a concrete reachable table (create, then finalize with
status error) whose row satisfies the invariant. -/
theorem auditReachable_endTime_iff_not_connected_witness :
    ({ id := "h1", targetId := "prod-a", targetName := some "prod",
       host := "10.0.0.5", port := 22, username := "root", startTime := 1,
       endTime := some 5, status := SessionStatus.error,
       reason := some "incident" } : SessionHistoryRow).endTime ≠ none ↔
    ({ id := "h1", targetId := "prod-a", targetName := some "prod",
       host := "10.0.0.5", port := 22, username := "root", startTime := 1,
       endTime := some 5, status := SessionStatus.error,
       reason := some "incident" } : SessionHistoryRow).status
      ≠ SessionStatus.connected :=
  auditReachable_endTime_iff_not_connected _
    (AuditReachable.finalizeError _ "h1" 5
      (AuditReachable.create []
        "h1" ⟨"prod-a", "10.0.0.5", 22, "root", none, none, some "prod"⟩
        "incident" 1 AuditReachable.nil))
    _ (by decide)

/-! ### Claim C7: auth token lazy expiry on read. -/

/-- C7: reading a stored auth token whose expiresAt is at or before now
returns absent and physically deletes that row from the store; reading a
non-expired token returns it unchanged and deletes nothing. -/
theorem getAuthSession_lazy_expiry
    (store : List AuthSessionRow) (token : String) (now : Nat)
    (s : AuthSessionRow)
    (hfind : store.find? (fun r => r.token == token) = some s) :
    (s.expiresAt ≤ now →
      getAuthSession store token now
        = (none, store.filter (fun r => !(r.token == token))) ∧
      s ∉ (getAuthSession store token now).2) ∧
    (now < s.expiresAt →
      getAuthSession store token now = (some s, store)) := by
  have hs : (s.token == token) = true := by
    have := List.find?_some hfind
    simpa using this
  constructor
  · intro h
    have heq : getAuthSession store token now
        = (none, store.filter (fun r => !(r.token == token))) := by
      simp [getAuthSession, hfind, h, deleteAuthSession]
    refine ⟨heq, ?_⟩
    rw [heq]
    intro hmem
    have := (List.mem_filter.mp hmem).2
    simp [hs] at this
  · intro h
    simp only [getAuthSession, hfind]
    rw [if_neg (by omega)]

/-- Witness for C7: a token stored with expiresAt 10 read at now 10 is
absent and removed; read at now 9 it is returned and the store is kept. -/
theorem getAuthSession_lazy_expiry_witness :
    getAuthSession [⟨"t", "alice", "local", 0, 10⟩] "t" 10 = (none, []) ∧
    getAuthSession [⟨"t", "alice", "local", 0, 10⟩] "t" 9
      = (some ⟨"t", "alice", "local", 0, 10⟩,
         [⟨"t", "alice", "local", 0, 10⟩]) := by
  constructor
  · have h := (getAuthSession_lazy_expiry
      [⟨"t", "alice", "local", 0, 10⟩] "t" 10
      ⟨"t", "alice", "local", 0, 10⟩ (by decide)).1 (by decide)
    simpa using h.1
  · exact (getAuthSession_lazy_expiry
      [⟨"t", "alice", "local", 0, 10⟩] "t" 9
      ⟨"t", "alice", "local", 0, 10⟩ (by decide)).2 (by decide)

/-! ### Claim C9: POST /api/targets is an upsert. -/

/-- The target row the POST /api/targets handler builds from the request
body (webshell-gateway/index.ts): port defaults to 22 when no finite number
was supplied, password/privateKey fall back to null, name || null maps the
empty string to null. -/
def postTargetRow (id host username name : String) (portValue : Option Int)
    (password privateKey : Option String) : WebshellTargetRow :=
  { id := id
    host := host
    port := match portValue with | some p => p | none => 22
    username := username
    password := password
    privateKey := privateKey
    name := if name == "" then none else some name }

/-- The POST /api/targets handler (webshell-gateway/index.ts), after body
extraction: id, host, username, name hold the trimmed string fields (empty
when absent or non-string), portValue the supplied finite port if any,
password and privateKey the supplied string fields if any.  id, host and
username must be non-empty (else HTTP 400); then the row is updated if a
target with that id exists, and inserted otherwise. -/
def postApiTargets (targets : List WebshellTargetRow)
    (id host username name : String) (portValue : Option Int)
    (password privateKey : Option String) :
    Except String (List WebshellTargetRow) :=
  if id == "" || host == "" || username == "" then
    Except.error "id、host、username 均不能为空"
  else
    let row := postTargetRow id host username name portValue password privateKey
    match getTarget targets id with
    | some _ => Except.ok (updateTarget targets row)
    | none => Except.ok (createTarget targets row)

/-- updateTarget rewrites the matching row in place, so the list of target
ids (in particular its length and uniqueness) is unchanged. -/
theorem updateTarget_map_id (targets : List WebshellTargetRow)
    (row : WebshellTargetRow) :
    (updateTarget targets row).map WebshellTargetRow.id
      = targets.map WebshellTargetRow.id := by
  simp only [updateTarget, List.map_map]
  refine List.map_congr_left (fun t _ => ?_)
  simp only [Function.comp_apply]
  by_cases h : t.id == row.id
  · simp only [h, if_true]
    exact (eq_of_beq h).symm
  · simp [h]

/-- After updateTarget, a lookup of the row's id finds the new row, provided
a row with that id existed. -/
theorem getTarget_updateTarget (targets : List WebshellTargetRow)
    (row : WebshellTargetRow)
    (hex : (getTarget targets row.id).isSome) :
    getTarget (updateTarget targets row) row.id = some row := by
  induction targets with
  | nil => simp [getTarget] at hex
  | cons t rest ih =>
      by_cases h : t.id == row.id
      · have hu : updateTarget (t :: rest) row = row :: updateTarget rest row := by
          simp only [updateTarget, List.map_cons]
          rw [if_pos h]
        rw [hu]
        unfold getTarget
        rw [List.find?_cons_of_pos _ (by simp)]
      · simp only [getTarget, updateTarget, List.map_cons, h, if_false,
          Bool.false_eq_true] at hex ⊢
        rw [List.find?_cons_of_neg _ (by simp [h])] at hex ⊢
        exact ih hex

/-- C9: posting a target whose id already exists does not fail and does not
create a second row: the handler takes the update branch, the table keeps
exactly the same ids (so ids stay unique), and the stored target for that id
becomes the newly supplied row (most recent create wins, all of host, port,
username, password, privateKey and name overwritten). -/
theorem postApiTargets_existing_upsert
    (targets : List WebshellTargetRow) (old : WebshellTargetRow)
    (id host username name : String) (portValue : Option Int)
    (password privateKey : Option String)
    (hid : id ≠ "") (hhost : host ≠ "") (huser : username ≠ "")
    (hexist : getTarget targets id = some old) :
    postApiTargets targets id host username name portValue password privateKey
      = Except.ok (updateTarget targets
          (postTargetRow id host username name portValue password privateKey)) ∧
    (updateTarget targets
        (postTargetRow id host username name portValue password privateKey)).map
        WebshellTargetRow.id
      = targets.map WebshellTargetRow.id ∧
    getTarget (updateTarget targets
        (postTargetRow id host username name portValue password privateKey)) id
      = some (postTargetRow id host username name portValue password privateKey) := by
  refine ⟨?_, updateTarget_map_id targets _, ?_⟩
  · simp [postApiTargets, hid, hhost, huser, hexist]
  · exact getTarget_updateTarget targets _ (by simp [postTargetRow, hexist])

/-- Witness for C9 at a concrete table: re-posting id a overwrites the
stored row and keeps a single row. -/
theorem postApiTargets_existing_upsert_witness :
    postApiTargets [⟨"a", "h1", 22, "u1", none, none, none⟩]
        "a" "h2" "u2" "srv" (some 2222) (some "pw") none
      = Except.ok (updateTarget [⟨"a", "h1", 22, "u1", none, none, none⟩]
          (postTargetRow "a" "h2" "u2" "srv" (some 2222) (some "pw") none)) ∧
    (updateTarget [⟨"a", "h1", 22, "u1", none, none, none⟩]
        (postTargetRow "a" "h2" "u2" "srv" (some 2222) (some "pw") none)).map
        WebshellTargetRow.id
      = [⟨"a", "h1", 22, "u1", none, none, none⟩].map WebshellTargetRow.id ∧
    getTarget (updateTarget [⟨"a", "h1", 22, "u1", none, none, none⟩]
        (postTargetRow "a" "h2" "u2" "srv" (some 2222) (some "pw") none)) "a"
      = some (postTargetRow "a" "h2" "u2" "srv" (some 2222) (some "pw") none) :=
  postApiTargets_existing_upsert
    [⟨"a", "h1", 22, "u1", none, none, none⟩]
    ⟨"a", "h1", 22, "u1", none, none, none⟩
    "a" "h2" "u2" "srv" (some 2222) (some "pw") none
    (by decide) (by decide) (by decide) (by decide)

/-! ### The live proxy bridge (wss connection handler in
webshell-gateway/index.ts) and the session-creation endpoint. -/

/-- Embedding of JS String.prototype.trim: strip leading and trailing
whitespace. -/
def strTrim (s : String) : String :=
  String.mk
    (((s.data.dropWhile Char.isWhitespace).reverse.dropWhile
        Char.isWhitespace).reverse)

/-- Embedding of .replace over the pattern of one or more trailing slashes,
used on PUBLIC_BASE_URL and SSH_WEBSHELL_API_URL. -/
def stripTrailingSlashes (s : String) : String :=
  String.mk ((s.data.reverse.dropWhile (fun c => c == '/')).reverse)

/-- The session URL returned by POST /api/session: base with trailing
slashes removed, then /session/ and the handle. -/
def sessionUrlFor (base id : String) : String :=
  stripTrailingSlashes base ++ "/session/" ++ id

/-- Map.get on the in-memory sessions map, modelled as an association list
with the most recent binding first. -/
def mapGet (sessions : List (String × SSHSessionInfo)) (id : String) :
    Option SSHSessionInfo :=
  (sessions.find? (fun p => p.1 == id)).map Prod.snd

/-- Map.set on the in-memory sessions map. -/
def mapSet (sessions : List (String × SSHSessionInfo)) (id : String)
    (info : SSHSessionInfo) : List (String × SSHSessionInfo) :=
  (id, info) :: sessions.filter (fun p => !(p.1 == id))

/-- The gateway state touched by POST /api/session: the in-memory sessions
map, the persisted audit table, and the targets table. -/
structure GatewayState where
  sessions : List (String × SSHSessionInfo)
  audit : List SessionHistoryRow
  targets : List WebshellTargetRow
deriving DecidableEq, Repr

/-- The POST /api/session handler (webshell-gateway/index.ts): trim targetId
and reason; an empty targetId is HTTP 400; an unknown target is an error;
otherwise store a fresh SSHSessionInfo under the freshly generated UUID
(freshId stands for the randomUUID() result), insert the audit row built by
createSessionHistoryRow, and respond with the session URL embedding the
handle.  No remote connection is attempted here; the SSH connect happens
only later, when a WebSocket attaches.  now stands for the Date.now() and
new Date() readings. -/
def postApiSession (st : GatewayState)
    (base freshId rawTargetId rawReason : String) (now : Nat) :
    Except String (GatewayState × String) :=
  let targetId := strTrim rawTargetId
  let reason := strTrim rawReason
  if targetId == "" then Except.error "targetId 必须是非空字符串"
  else
    match getTarget st.targets targetId with
    | none => Except.error ("未找到目标: " ++ targetId)
    | some target =>
        let info : SSHSessionInfo :=
          { id := freshId, targetId := target.id, reason := reason,
            createdAt := now }
        Except.ok
          ({ st with
              sessions := mapSet st.sessions freshId info
              audit := createSession st.audit
                (createSessionHistoryRow freshId target reason now) },
           sessionUrlFor base freshId)

/-- C3: creating a session against an existing target succeeds, extends the
in-memory table with exactly the LiveSession entry for the fresh handle,
appends one audit row with status connected, endTime null and the target's
name/host/port/username captured at creation time, leaves the targets table
alone (no remote connection is involved in this handler), and returns the
attach URL embedding the handle; a lookup of the handle immediately
succeeds. -/
theorem postApiSession_create_lookup
    (st : GatewayState) (base freshId rawTargetId rawReason : String)
    (now : Nat) (target : WebshellTargetRow)
    (hne : strTrim rawTargetId ≠ "")
    (hget : getTarget st.targets (strTrim rawTargetId) = some target)
    (hfresh : mapGet st.sessions freshId = none) :
    postApiSession st base freshId rawTargetId rawReason now
      = Except.ok
          ({ sessions :=
                (freshId,
                  { id := freshId, targetId := target.id,
                    reason := strTrim rawReason, createdAt := now })
                  :: st.sessions
             audit := st.audit
               ++ [createSessionHistoryRow freshId target (strTrim rawReason) now]
             targets := st.targets },
           sessionUrlFor base freshId) ∧
    mapGet
        ((freshId,
          ({ id := freshId, targetId := target.id, reason := strTrim rawReason,
             createdAt := now } : SSHSessionInfo)) :: st.sessions) freshId
      = some { id := freshId, targetId := target.id,
               reason := strTrim rawReason, createdAt := now } ∧
    (createSessionHistoryRow freshId target (strTrim rawReason) now).status
      = SessionStatus.connected ∧
    (createSessionHistoryRow freshId target (strTrim rawReason) now).endTime
      = none ∧
    (createSessionHistoryRow freshId target (strTrim rawReason) now).targetName
      = target.name ∧
    (createSessionHistoryRow freshId target (strTrim rawReason) now).host
      = target.host ∧
    (createSessionHistoryRow freshId target (strTrim rawReason) now).port
      = target.port ∧
    (createSessionHistoryRow freshId target (strTrim rawReason) now).username
      = target.username := by
  have hfilter : st.sessions.filter (fun p => !(p.1 == freshId)) = st.sessions := by
    refine List.filter_eq_self.mpr (fun p hp => ?_)
    have hnone : st.sessions.find? (fun p => p.1 == freshId) = none := by
      cases hfind : st.sessions.find? (fun p => p.1 == freshId) with
      | none => rfl
      | some q => rw [mapGet, hfind] at hfresh; cases hfresh
    have := List.find?_eq_none.mp hnone p hp
    simpa using this
  refine ⟨?_, ?_, rfl, rfl, rfl, rfl, rfl, rfl⟩
  · simp only [postApiSession, hget]
    rw [if_neg (by simpa using hne)]
    simp [mapSet, hfilter, createSession]
  · simp [mapGet]

/-- Witness for C3 at a concrete state: one configured target, a fresh
UUID, a padded targetId and reason. -/
theorem postApiSession_create_lookup_witness :
    postApiSession
        { sessions := [], audit := [],
          targets := [⟨"prod-a", "10.0.0.5", 22, "root", some "pw", none,
            some "prod"⟩] }
        "http://localhost:9100/" "h1" " prod-a " " incident-123 " 7
      = Except.ok
          ({ sessions :=
                [("h1",
                  { id := "h1", targetId := "prod-a",
                    reason := strTrim " incident-123 ", createdAt := 7 })]
             audit :=
               [] ++ [createSessionHistoryRow "h1"
                 ⟨"prod-a", "10.0.0.5", 22, "root", some "pw", none,
                   some "prod"⟩ (strTrim " incident-123 ") 7]
             targets := [⟨"prod-a", "10.0.0.5", 22, "root", some "pw", none,
               some "prod"⟩] },
           sessionUrlFor "http://localhost:9100/" "h1") ∧
    mapGet
        [("h1",
          ({ id := "h1", targetId := "prod-a",
             reason := strTrim " incident-123 ", createdAt := 7 } :
            SSHSessionInfo))] "h1"
      = some { id := "h1", targetId := "prod-a",
               reason := strTrim " incident-123 ", createdAt := 7 } ∧
    (createSessionHistoryRow "h1"
        ⟨"prod-a", "10.0.0.5", 22, "root", some "pw", none, some "prod"⟩
        (strTrim " incident-123 ") 7).status = SessionStatus.connected ∧
    (createSessionHistoryRow "h1"
        ⟨"prod-a", "10.0.0.5", 22, "root", some "pw", none, some "prod"⟩
        (strTrim " incident-123 ") 7).endTime = none ∧
    (createSessionHistoryRow "h1"
        ⟨"prod-a", "10.0.0.5", 22, "root", some "pw", none, some "prod"⟩
        (strTrim " incident-123 ") 7).targetName = some "prod" ∧
    (createSessionHistoryRow "h1"
        ⟨"prod-a", "10.0.0.5", 22, "root", some "pw", none, some "prod"⟩
        (strTrim " incident-123 ") 7).host = "10.0.0.5" ∧
    (createSessionHistoryRow "h1"
        ⟨"prod-a", "10.0.0.5", 22, "root", some "pw", none, some "prod"⟩
        (strTrim " incident-123 ") 7).port = 22 ∧
    (createSessionHistoryRow "h1"
        ⟨"prod-a", "10.0.0.5", 22, "root", some "pw", none, some "prod"⟩
        (strTrim " incident-123 ") 7).username = "root" :=
  postApiSession_create_lookup
    { sessions := [], audit := [],
      targets := [⟨"prod-a", "10.0.0.5", 22, "root", some "pw", none,
        some "prod"⟩] }
    "http://localhost:9100/" "h1" " prod-a " " incident-123 " 7
    ⟨"prod-a", "10.0.0.5", 22, "root", some "pw", none, some "prod"⟩
    (by decide) (by decide) (by decide)

/-! ### Bridge event handlers.

The wss connection handler registers, per attach attempt: an ssh error
handler, an ssh close handler, a shell-stream data/close pair, a socket
message handler, and a socket close handler.  The state below tracks the
parts those handlers touch.  Events run one at a time on the event loop, in
the order they fire; the audit writes are issued in that order. -/

/-- Observable state of one attach-and-bridge attempt. -/
structure BridgeState where
  socketOpen : Bool
  sentToCaller : List String
  sshEnded : Bool
  audit : List SessionHistoryRow
deriving DecidableEq, Repr

/-- The ssh error handler: if the caller socket is still open, send the
diagnostic and close it; end the ssh connection; write
updateSessionEndTime(info.id, new Date(), error). -/
def onSshError (sid : String) (now : Nat) (st : BridgeState) : BridgeState :=
  let st1 :=
    if st.socketOpen then
      { st with
          sentToCaller := st.sentToCaller ++ ["连接远程主机失败\\r\\n"]
          socketOpen := false }
    else st
  { st1 with
      sshEnded := true
      audit := updateSessionEndTime st1.audit sid now SessionStatus.error }

/-- The socket close handler: end the ssh connection and write
updateSessionEndTime(info.id, new Date(), disconnected). -/
def onSocketClose (sid : String) (now : Nat) (st : BridgeState) : BridgeState :=
  { st with
      sshEnded := true
      audit := updateSessionEndTime st.audit sid now SessionStatus.disconnected }

/-- The ssh close handler: if the caller socket is still open, close it.
No audit write. -/
def onSshClose (st : BridgeState) : BridgeState :=
  if st.socketOpen then { st with socketOpen := false } else st

/-- Event sequence when the remote SSH connection attempt of an attached
session fails: the ssh error handler runs at now1; if it closed the caller
socket (the socket was open), the WebSocket close event follows and the
socket close handler runs at now2. -/
def sshConnectFailureRun (sid : String) (now1 now2 : Nat) (st : BridgeState) :
    BridgeState :=
  let st1 := onSshError sid now1 st
  if st.socketOpen then onSocketClose sid now2 st1 else st1

/-- Event sequence when the caller transport of an attached, bridged session
closes: the socket close handler runs (ssh.end() plus the disconnected
finalize); ssh.end() then raises the ssh close event, whose handler finds
the socket already closed and writes nothing. -/
def callerCloseRun (sid : String) (now : Nat) (st : BridgeState) :
    BridgeState :=
  onSshClose (onSocketClose sid now { st with socketOpen := false })

/-- C1 exhibit: for an attached session with the caller socket open whose
SSH connection attempt fails, the diagnostic is sent, the socket is closed,
and the error finalize is written — but closing the socket triggers the
socket close handler, whose disconnected finalize overwrites it.  The
terminal audit status is disconnected, not error: the code disagrees with
its own README (which states the record's status becomes error when the
remote connect fails) and with the spec. -/
theorem sshConnectFailure_terminal_status_is_disconnected :
    (onSshError "h1"
        5
        { socketOpen := true, sentToCaller := [], sshEnded := false,
          audit := [createSessionHistoryRow "h1"
            ⟨"prod-a", "10.0.0.5", 22, "root", none, none, some "prod"⟩
            "incident" 1] }).audit.map SessionHistoryRow.status
      = [SessionStatus.error] ∧
    (sshConnectFailureRun "h1" 5 6
        { socketOpen := true, sentToCaller := [], sshEnded := false,
          audit := [createSessionHistoryRow "h1"
            ⟨"prod-a", "10.0.0.5", 22, "root", none, none, some "prod"⟩
            "incident" 1] }).audit.map SessionHistoryRow.status
      = [SessionStatus.disconnected] ∧
    (sshConnectFailureRun "h1" 5 6
        { socketOpen := true, sentToCaller := [], sshEnded := false,
          audit := [createSessionHistoryRow "h1"
            ⟨"prod-a", "10.0.0.5", 22, "root", none, none, some "prod"⟩
            "incident" 1] }).audit.map SessionHistoryRow.endTime
      = [some 6] ∧
    (sshConnectFailureRun "h1" 5 6
        { socketOpen := true, sentToCaller := [], sshEnded := false,
          audit := [createSessionHistoryRow "h1"
            ⟨"prod-a", "10.0.0.5", 22, "root", none, none, some "prod"⟩
            "incident" 1] }).socketOpen = false ∧
    (sshConnectFailureRun "h1" 5 6
        { socketOpen := true, sentToCaller := [], sshEnded := false,
          audit := [createSessionHistoryRow "h1"
            ⟨"prod-a", "10.0.0.5", 22, "root", none, none, some "prod"⟩
            "incident" 1] }).sentToCaller = ["连接远程主机失败\\r\\n"] := by
  refine ⟨?_, ?_, ?_, rfl, rfl⟩ <;> rfl

/-- C5: when the caller transport of an attached session closes, the bridge
ends the remote SSH channel, and the audit row for the handle is overwritten
with status disconnected and a non-null endTime; no row is added or removed,
and the following ssh close event writes nothing further. -/
theorem callerClose_finalizes_disconnected
    (st : BridgeState) (sid : String) (now : Nat) (r : SessionHistoryRow)
    (hr : r ∈ st.audit) (hid : r.id = sid) :
    (callerCloseRun sid now st).sshEnded = true ∧
    { r with endTime := some now, status := SessionStatus.disconnected }
      ∈ (callerCloseRun sid now st).audit ∧
    (callerCloseRun sid now st).audit
      = updateSessionEndTime st.audit sid now SessionStatus.disconnected ∧
    (callerCloseRun sid now st).audit.map SessionHistoryRow.id
      = st.audit.map SessionHistoryRow.id := by
  have haudit : (callerCloseRun sid now st).audit
      = updateSessionEndTime st.audit sid now SessionStatus.disconnected := by
    simp [callerCloseRun, onSshClose, onSocketClose]
  refine ⟨by simp [callerCloseRun, onSshClose, onSocketClose], ?_, haudit, ?_⟩
  · rw [haudit]
    simp only [updateSessionEndTime]
    exact List.mem_map.mpr ⟨r, hr, by simp [hid]⟩
  · rw [haudit]
    simp only [updateSessionEndTime, List.map_map]
    refine List.map_congr_left (fun a _ => ?_)
    simp only [Function.comp_apply]
    by_cases h : a.id == sid
    · simp [h]
    · simp [h]

/-- Witness for C5: the scenario of the spec — a bridged session whose
caller transport closes at time 60 finalizes its audit row as disconnected
with endTime 60. -/
theorem callerClose_finalizes_disconnected_witness :
    (callerCloseRun "h1" 60
        { socketOpen := true, sentToCaller := ["banner"], sshEnded := false,
          audit := [createSessionHistoryRow "h1"
            ⟨"prod-a", "10.0.0.5", 22, "root", none, none, some "prod"⟩
            "incident" 1] }).sshEnded = true ∧
    { (createSessionHistoryRow "h1"
        ⟨"prod-a", "10.0.0.5", 22, "root", none, none, some "prod"⟩
        "incident" 1) with
        endTime := some 60, status := SessionStatus.disconnected }
      ∈ (callerCloseRun "h1" 60
          { socketOpen := true, sentToCaller := ["banner"], sshEnded := false,
            audit := [createSessionHistoryRow "h1"
              ⟨"prod-a", "10.0.0.5", 22, "root", none, none, some "prod"⟩
              "incident" 1] }).audit ∧
    (callerCloseRun "h1" 60
        { socketOpen := true, sentToCaller := ["banner"], sshEnded := false,
          audit := [createSessionHistoryRow "h1"
            ⟨"prod-a", "10.0.0.5", 22, "root", none, none, some "prod"⟩
            "incident" 1] }).audit
      = updateSessionEndTime
          [createSessionHistoryRow "h1"
            ⟨"prod-a", "10.0.0.5", 22, "root", none, none, some "prod"⟩
            "incident" 1] "h1" 60 SessionStatus.disconnected ∧
    (callerCloseRun "h1" 60
        { socketOpen := true, sentToCaller := ["banner"], sshEnded := false,
          audit := [createSessionHistoryRow "h1"
            ⟨"prod-a", "10.0.0.5", 22, "root", none, none, some "prod"⟩
            "incident" 1] }).audit.map SessionHistoryRow.id
      = [createSessionHistoryRow "h1"
          ⟨"prod-a", "10.0.0.5", 22, "root", none, none, some "prod"⟩
          "incident" 1].map SessionHistoryRow.id :=
  callerClose_finalizes_disconnected
    { socketOpen := true, sentToCaller := ["banner"], sshEnded := false,
      audit := [createSessionHistoryRow "h1"
        ⟨"prod-a", "10.0.0.5", 22, "root", none, none, some "prod"⟩
        "incident" 1] }
    "h1" 60
    (createSessionHistoryRow "h1"
      ⟨"prod-a", "10.0.0.5", 22, "root", none, none, some "prod"⟩
      "incident" 1)
    (by decide) (by decide)

/-! ### Claim C6: attach with an unknown handle. -/

/-- Result of the admission step of the wss connection handler. -/
structure AttachStart where
  socketClosed : Bool
  admitted : Option SSHSessionInfo
  audit : List SessionHistoryRow
deriving DecidableEq, Repr

/-- The admission step of the wss connection handler: look the sessionId up
in the in-memory map; if absent, socket.close() and return with no further
action; if present, proceed toward the SSH connect (still no audit write at
admission time). -/
def wsConnectionAdmit (sessions : List (String × SSHSessionInfo))
    (audit : List SessionHistoryRow) (sessionId : String) : AttachStart :=
  match mapGet sessions sessionId with
  | none => { socketClosed := true, admitted := none, audit := audit }
  | some info => { socketClosed := false, admitted := some info, audit := audit }

/-- C6: an attach attempt with a handle absent from the in-memory session
table closes the caller transport immediately, admits nothing, and leaves
the audit table exactly as it was — no row created or updated. -/
theorem wsConnectionAdmit_unknown_handle
    (sessions : List (String × SSHSessionInfo))
    (audit : List SessionHistoryRow) (sessionId : String)
    (habsent : mapGet sessions sessionId = none) :
    wsConnectionAdmit sessions audit sessionId
      = { socketClosed := true, admitted := none, audit := audit } := by
  simp [wsConnectionAdmit, habsent]

/-- Witness for C6: a never-issued handle against a table holding a
different live session. -/
theorem wsConnectionAdmit_unknown_handle_witness :
    wsConnectionAdmit [("h1", ⟨"h1", "prod-a", "incident", 7⟩)]
        [createSessionHistoryRow "h1"
          ⟨"prod-a", "10.0.0.5", 22, "root", none, none, some "prod"⟩
          "incident" 7] "h2"
      = { socketClosed := true, admitted := none,
          audit := [createSessionHistoryRow "h1"
            ⟨"prod-a", "10.0.0.5", 22, "root", none, none, some "prod"⟩
            "incident" 7] } :=
  wsConnectionAdmit_unknown_handle
    [("h1", ⟨"h1", "prod-a", "incident", 7⟩)]
    [createSessionHistoryRow "h1"
      ⟨"prod-a", "10.0.0.5", 22, "root", none, none, some "prod"⟩
      "incident" 7] "h2" (by decide)

/-! ### The MCP tool handlers' target resolution (src/index.ts). -/

/-- SSHWebshellTarget from src/index.ts: a target as the MCP server sees it
after fetchWebshellTargets. -/
structure SSHWebshellTarget where
  id : String
  name : Option String
  host : Option String
  port : Option Int
  username : Option String
deriving DecidableEq, Repr

/-- Embedding of JS String.prototype.toLowerCase (simple case mapping). -/
def strToLower (s : String) : String := String.mk (s.data.map Char.toLower)

/-- listStartsWith hay needle: needle is a prefix of hay. -/
def listStartsWith : List Char → List Char → Bool
  | _, [] => true
  | [], _ :: _ => false
  | a :: as, b :: bs => a == b && listStartsWith as bs

/-- listContainsSub hay needle: needle occurs contiguously inside hay. -/
def listContainsSub : List Char → List Char → Bool
  | [], needle => needle.isEmpty
  | a :: as, needle => listStartsWith (a :: as) needle || listContainsSub as needle

/-- Embedding of JS hay.includes(needle). -/
def strIncludes (hay needle : String) : Bool :=
  listContainsSub hay.data needle.data

/-- The rendering of one target in the tool handlers' suggestion strings:
name (id) when a non-empty name differs from the id, else just the id. -/
def renderTargetName (t : SSHWebshellTarget) : String :=
  match t.name with
  | some n => if n != "" && n != t.id then n ++ " (" ++ t.id ++ ")" else t.id
  | none => t.id

/-- The suggestion string: the rendered targets joined by a comma. -/
def renderNames (l : List SSHWebshellTarget) : String :=
  String.intercalate ", " (l.map renderTargetName)

/-- Result of create_ssh_web_terminal target resolution. -/
inductive ExplicitResolveResult where
  | ok (t : SSHWebshellTarget)
  | notFound (msg : String)
  | needTargetId (names : String)
  | noTargets
deriving DecidableEq, Repr

/-- The no-targetId path of the create_ssh_web_terminal handler: a single
configured target is used automatically; several targets are an error
listing them; none is an error. -/
def fallbackResolve (targets : List SSHWebshellTarget) : ExplicitResolveResult :=
  match targets with
  | [t] => ExplicitResolveResult.ok t
  | [] => ExplicitResolveResult.noTargets
  | ts => ExplicitResolveResult.needTargetId (renderNames ts)

/-- The target-resolution part of the create_ssh_web_terminal tool handler
(src/index.ts): with a targetId that trims to a non-empty string, take the
first target whose id, or whose name when it is a string, equals the trimmed
input exactly (case-sensitively); a miss is an error enumerating all known
targets.  Otherwise fall back to the no-targetId path. -/
def createTerminalResolve (targets : List SSHWebshellTarget)
    (targetId : Option String) : ExplicitResolveResult :=
  match targetId with
  | some raw =>
      if strTrim raw == "" then fallbackResolve targets
      else
        match targets.find?
            (fun t => t.id == strTrim raw || t.name == some (strTrim raw)) with
        | some found => ExplicitResolveResult.ok found
        | none =>
            ExplicitResolveResult.notFound
              ("未找到目标: " ++ strTrim raw ++ "，可用目标: "
                ++ renderNames targets)
  | none => fallbackResolve targets

/-- C10: with an explicit non-empty targetId, resolution succeeds exactly
when some target's id or display name equals the trimmed input exactly and
case-sensitively — no case-insensitive or substring matching — the resolved
target is such a target, and a non-match fails with an error enumerating
all known targets. -/
theorem createTerminalResolve_explicit_case_sensitive
    (targets : List SSHWebshellTarget) (raw : String)
    (hne : strTrim raw ≠ "") :
    ((∃ t, createTerminalResolve targets (some raw)
        = ExplicitResolveResult.ok t)
      ↔ ∃ t ∈ targets, t.id = strTrim raw ∨ t.name = some (strTrim raw)) ∧
    (∀ t, createTerminalResolve targets (some raw)
        = ExplicitResolveResult.ok t →
      t ∈ targets ∧ (t.id = strTrim raw ∨ t.name = some (strTrim raw))) ∧
    ((¬ ∃ t ∈ targets, t.id = strTrim raw ∨ t.name = some (strTrim raw)) →
      createTerminalResolve targets (some raw)
        = ExplicitResolveResult.notFound
            ("未找到目标: " ++ strTrim raw ++ "，可用目标: "
              ++ renderNames targets)) := by
  have hcond : (strTrim raw == "") = false := by simpa using hne
  refine ⟨?_, ?_, ?_⟩
  · constructor
    · rintro ⟨t, ht⟩
      simp only [createTerminalResolve, hcond, Bool.false_eq_true, if_false] at ht
      cases hfind : targets.find?
          (fun t => t.id == strTrim raw || t.name == some (strTrim raw)) with
      | none => rw [hfind] at ht; cases ht
      | some found =>
          rw [hfind] at ht
          cases ht
          refine ⟨t, List.mem_of_find?_eq_some hfind, ?_⟩
          have := List.find?_some hfind
          simpa using this
    · rintro ⟨t, htmem, hteq⟩
      have hsome : (targets.find?
          (fun t => t.id == strTrim raw || t.name == some (strTrim raw))).isSome := by
        refine List.find?_isSome.mpr ⟨t, htmem, ?_⟩
        simpa using hteq
      cases hfind : targets.find?
          (fun t => t.id == strTrim raw || t.name == some (strTrim raw)) with
      | none => rw [hfind] at hsome; cases hsome
      | some found =>
          exact ⟨found, by
            simp only [createTerminalResolve, hcond, Bool.false_eq_true,
              if_false, hfind]⟩
  · intro t ht
    simp only [createTerminalResolve, hcond, Bool.false_eq_true, if_false] at ht
    cases hfind : targets.find?
        (fun t => t.id == strTrim raw || t.name == some (strTrim raw)) with
    | none => rw [hfind] at ht; cases ht
    | some found =>
        rw [hfind] at ht
        cases ht
        refine ⟨List.mem_of_find?_eq_some hfind, ?_⟩
        have := List.find?_some hfind
        simpa using this
  · intro hno
    have hnone : targets.find?
        (fun t => t.id == strTrim raw || t.name == some (strTrim raw)) = none := by
      refine List.find?_eq_none.mpr (fun t htmem => ?_)
      intro hp
      exact hno ⟨t, htmem, by simpa using hp⟩
    simp only [createTerminalResolve, hcond, Bool.false_eq_true, if_false, hnone]

/-- Witness for C10: id Prod-A matches only the exact case; the
differently-cased hint prod-a does not resolve and enumerates the targets. -/
theorem createTerminalResolve_explicit_case_sensitive_witness :
    ((∃ t, createTerminalResolve
        [⟨"Prod-A", some "prod", none, none, none⟩] (some " Prod-A ")
        = ExplicitResolveResult.ok t)
      ↔ ∃ t ∈ [(⟨"Prod-A", some "prod", none, none, none⟩ : SSHWebshellTarget)],
          t.id = strTrim " Prod-A " ∨ t.name = some (strTrim " Prod-A ")) ∧
    (∀ t, createTerminalResolve
        [⟨"Prod-A", some "prod", none, none, none⟩] (some " Prod-A ")
        = ExplicitResolveResult.ok t →
      t ∈ [(⟨"Prod-A", some "prod", none, none, none⟩ : SSHWebshellTarget)] ∧
        (t.id = strTrim " Prod-A " ∨ t.name = some (strTrim " Prod-A "))) ∧
    ((¬ ∃ t ∈ [(⟨"Prod-A", some "prod", none, none, none⟩ : SSHWebshellTarget)],
          t.id = strTrim " Prod-A " ∨ t.name = some (strTrim " Prod-A ")) →
      createTerminalResolve
          [⟨"Prod-A", some "prod", none, none, none⟩] (some " Prod-A ")
        = ExplicitResolveResult.notFound
            ("未找到目标: " ++ strTrim " Prod-A " ++ "，可用目标: "
              ++ renderNames [⟨"Prod-A", some "prod", none, none, none⟩])) :=
  createTerminalResolve_explicit_case_sensitive
    [⟨"Prod-A", some "prod", none, none, none⟩] " Prod-A " (by decide)

/-! ### Claim C4: open_ssh_terminal two-tier hint resolution. -/

/-- (t.name || '').toLowerCase() in the open_ssh_terminal handler. -/
def nameLowerOf (t : SSHWebshellTarget) : String :=
  strToLower (t.name.getD "")

/-- isExact in the open_ssh_terminal handler: the lowered hint equals the
lowered id, or the lowered name when that is non-empty. -/
def isExactMatch (lowered : String) (t : SSHWebshellTarget) : Bool :=
  strToLower t.id == lowered || (nameLowerOf t != "" && nameLowerOf t == lowered)

/-- isPartial in the open_ssh_terminal handler: not exact, and the lowered
hint occurs inside the lowered id, or inside the lowered name when that is
non-empty. -/
def isPartialMatch (lowered : String) (t : SSHWebshellTarget) : Bool :=
  !isExactMatch lowered t &&
    (strIncludes (strToLower t.id) lowered ||
      (nameLowerOf t != "" && strIncludes (nameLowerOf t) lowered))

/-- Result of open_ssh_terminal target resolution. -/
inductive HintResolveResult where
  | ok (t : SSHWebshellTarget)
  | emptyHint
  | noTargets
  | notFound (names : String)
  | ambiguous (names : String)
deriving DecidableEq, Repr

/-- The final case analysis of the open_ssh_terminal handler on the
candidate list: one candidate resolves, none is notFound listing every
target, several is ambiguous listing the candidates. -/
def pickCandidate (list : List SSHWebshellTarget) :
    List SSHWebshellTarget → HintResolveResult
  | [t] => HintResolveResult.ok t
  | [] => HintResolveResult.notFound (renderNames list)
  | cs => HintResolveResult.ambiguous (renderNames cs)

/-- The target-resolution part of the open_ssh_terminal tool handler
(src/index.ts): trim the hint (empty is an error), no targets is an error,
then one pass over the targets collecting exact and partial matches in
order; the candidates are the exact matches when any exist, else the
partial matches.  The handler then creates the session for the resolved
target's id. -/
def openSshTerminalResolve (list : List SSHWebshellTarget)
    (rawHint : String) : HintResolveResult :=
  let hint := strTrim rawHint
  if hint == "" then HintResolveResult.emptyHint
  else if list.isEmpty then HintResolveResult.noTargets
  else
    let lowered := strToLower hint
    let exactMatches := list.filter (isExactMatch lowered)
    let partialMatches := list.filter (isPartialMatch lowered)
    let candidates :=
      if 0 < exactMatches.length then exactMatches else partialMatches
    pickCandidate list candidates

/-- Modelled from the spec wording of C4: a target substring-matches the
lowered hint when the hint occurs in its lowered id or its lowered display
name. -/
def specSubstringMatch (lowered : String) (t : SSHWebshellTarget) : Bool :=
  strIncludes (strToLower t.id) lowered || strIncludes (nameLowerOf t) lowered

/-- Modelled from the spec wording of C4: the candidate set is exactly the
exact matches when at least one exists, otherwise every target containing
the hint as a substring. -/
def specCandidates (list : List SSHWebshellTarget) (lowered : String) :
    List SSHWebshellTarget :=
  if 0 < (list.filter (isExactMatch lowered)).length then
    list.filter (isExactMatch lowered)
  else
    list.filter (specSubstringMatch lowered)

/-- A string with empty data is the empty string. -/
theorem string_eq_empty_of_data {s : String} (h : s.data = []) : s = "" := by
  cases s with
  | mk data => cases h; rfl

/-- For a non-empty needle, the code's partial-match test coincides with
the plain substring test of the spec, up to the exactness guard. -/
theorem isPartialMatch_eq_spec (lowered : String) (hl : lowered.data ≠ [])
    (t : SSHWebshellTarget) :
    isPartialMatch lowered t
      = (!isExactMatch lowered t && specSubstringMatch lowered t) := by
  by_cases hn : nameLowerOf t = ""
  · have h2 : strIncludes "" lowered = false := by
      have hrw : strIncludes "" lowered = lowered.data.isEmpty := rfl
      rw [hrw]
      exact List.isEmpty_eq_false.mpr hl
    simp [isPartialMatch, specSubstringMatch, hn, h2]
  · have h3 : (nameLowerOf t != "") = true := by simpa using hn
    simp [isPartialMatch, specSubstringMatch, h3]

/-- The candidate list the handler computes equals the spec's candidate
set, for a non-empty lowered hint. -/
theorem candidates_eq_specCandidates (list : List SSHWebshellTarget)
    (lowered : String) (hl : lowered.data ≠ []) :
    (if 0 < (list.filter (isExactMatch lowered)).length then
        list.filter (isExactMatch lowered)
      else list.filter (isPartialMatch lowered))
      = specCandidates list lowered := by
  by_cases hex : 0 < (list.filter (isExactMatch lowered)).length
  · simp [specCandidates, hex]
  · have hnil : list.filter (isExactMatch lowered) = [] := by
      cases hq : list.filter (isExactMatch lowered) with
      | nil => rfl
      | cons a as => exfalso; apply hex; rw [hq]; simp
    have hall := List.filter_eq_nil_iff.mp hnil
    rw [if_neg hex, specCandidates, if_neg hex]
    refine List.filter_congr (fun t ht => ?_)
    rw [isPartialMatch_eq_spec lowered hl t]
    have : isExactMatch lowered t = false :=
      Bool.eq_false_iff.mpr (hall t ht)
    rw [this]
    simp

/-- C4: for a non-empty free-text hint against a non-empty target list, the
resolution outcome of open_ssh_terminal is governed by the spec's candidate
set (exact case-insensitive matches on id or display name when any exist,
else all case-insensitive substring matches): one candidate resolves to
that target, zero candidates is NotFound enumerating all known targets, and
two or more candidates is Ambiguous enumerating exactly the candidates. -/
theorem openSshTerminal_two_tier
    (list : List SSHWebshellTarget) (rawHint : String)
    (hne : strTrim rawHint ≠ "") (hlist : list ≠ []) :
    (∀ t, specCandidates list (strToLower (strTrim rawHint)) = [t] →
        openSshTerminalResolve list rawHint = HintResolveResult.ok t) ∧
    (specCandidates list (strToLower (strTrim rawHint)) = [] →
        openSshTerminalResolve list rawHint
          = HintResolveResult.notFound (renderNames list)) ∧
    (2 ≤ (specCandidates list (strToLower (strTrim rawHint))).length →
        openSshTerminalResolve list rawHint
          = HintResolveResult.ambiguous
              (renderNames (specCandidates list (strToLower (strTrim rawHint))))) := by
  have hl : (strToLower (strTrim rawHint)).data ≠ [] := by
    simp only [strToLower]
    intro hc
    apply hne
    exact string_eq_empty_of_data (List.map_eq_nil_iff.mp hc)
  have hcond1 : (strTrim rawHint == "") = false := by simpa using hne
  have hcond2 : list.isEmpty = false := by
    cases list with
    | nil => exact absurd rfl hlist
    | cons a as => rfl
  have hres : openSshTerminalResolve list rawHint
      = pickCandidate list
          (specCandidates list (strToLower (strTrim rawHint))) := by
    simp only [openSshTerminalResolve, hcond1, Bool.false_eq_true, if_false,
      hcond2]
    rw [candidates_eq_specCandidates list _ hl]
  refine ⟨?_, ?_, ?_⟩
  · intro t ht
    rw [hres, ht]
    rfl
  · intro h0
    rw [hres, h0]
    rfl
  · intro h2
    rw [hres]
    cases hsc : specCandidates list (strToLower (strTrim rawHint)) with
    | nil =>
        rw [hsc] at h2
        simp at h2
    | cons a rest =>
        cases rest with
        | nil =>
            rw [hsc] at h2
            simp at h2
        | cons b cs => rfl

/-- Witness for C4: the differently-cased hint PROD exactly matches the
display name prod of target prod-a (and nothing else), so it resolves. -/
theorem openSshTerminal_two_tier_witness :
    openSshTerminalResolve
        [⟨"prod-a", some "prod", none, none, none⟩,
         ⟨"dev-b", some "dev", none, none, none⟩] "PROD"
      = HintResolveResult.ok ⟨"prod-a", some "prod", none, none, none⟩ :=
  (openSshTerminal_two_tier
      [⟨"prod-a", some "prod", none, none, none⟩,
       ⟨"dev-b", some "dev", none, none, none⟩] "PROD"
      (by decide) (by decide)).1
    ⟨"prod-a", some "prod", none, none, none⟩ (by decide)

end SshMcp
